import Mathlib

/-!
Shallow embedding of the completion accumulator and dispatch core of
`crates/ide-completion/src/completions.rs`: the `Completions` accumulator and
its typed append methods, the visibility-gating protocol, the keyword-snippet
helpers, the qualified enum-variant path enumerator
(`enum_variants_with_paths`), and the two dispatch entry points
(`complete_name`, `complete_name_ref`).

External collaborators (the render functions of `crate::render`, the strategy
functions of the sibling modules, the HIR database, semantics, and module
queries) are modelled as explicit function-valued parameters, so the theorems
below quantify over every possible behavior of those collaborators.
-/

namespace hir

/-- A name, as produced by the HIR layer (`hir::Name`); rendered to a string
via `to_smol_str`, which we identify with the name itself. -/
abbrev Name := String

structure Macro where
  id : Nat
deriving DecidableEq

structure Function where
  id : Nat
deriving DecidableEq

structure Const where
  id : Nat
deriving DecidableEq

structure TypeAlias where
  id : Nat
deriving DecidableEq

structure Field where
  id : Nat
deriving DecidableEq

structure Variant where
  id : Nat
deriving DecidableEq

structure Struct where
  id : Nat
deriving DecidableEq

structure Union where
  id : Nat
deriving DecidableEq

structure Enum where
  id : Nat
deriving DecidableEq

/-- A resolved `impl` definition (`hir::Impl`). -/
structure Impl where
  id : Nat
deriving DecidableEq

/-- An arbitrary scope definition (`hir::ScopeDef`); opaque to this core. -/
structure ScopeDef where
  id : Nat
deriving DecidableEq

/-- The kind of a HIR module path (`hir::PathKind`); only `Plain` is
constructed by this file's code. -/
inductive PathKind where
  | Plain
  | Crate
  | Super (lvl : Nat)
  | Abs
deriving DecidableEq

/-- A module path (`hir::ModPath`): a path kind plus an ordered list of
name segments. -/
structure ModPath where
  kind : PathKind
  segments : List Name
deriving DecidableEq

/-- `hir::ModPath::from_segments`. -/
def ModPath.from_segments (kind : PathKind) (segments : List Name) : ModPath :=
  { kind := kind, segments := segments }

namespace known

/-- `hir::known::SELF_TYPE`, the `Self` type name. -/
def SELF_TYPE : Name := "Self"

end known

/-- An algebraic data type definition (`hir::Adt`). -/
inductive Adt where
  | Enum (e : Enum)
  | Struct (s : Struct)
  | Union (u : Union)
deriving DecidableEq

/-- A HIR type (`hir::Type`); the core only ever asks it `as_adt()`, so the
embedding records that answer directly. -/
structure Ty where
  as_adt : Option Adt
deriving DecidableEq

/-- A module definition reference (`hir::ModuleDef`); the core only ever
builds one from an enum variant (`hir::ModuleDef::from(variant)`). -/
inductive ModuleDef where
  | Variant (v : hir.Variant)
deriving DecidableEq

end hir

namespace ast

/-- Syntax node for an `impl` block (`ast::Impl`). -/
structure Impl where
  id : Nat
deriving DecidableEq

/-- Syntax node for a name being declared (`ast::Name`). -/
structure Name where
  id : Nat
deriving DecidableEq

/-- Syntax node for a name reference (`ast::NameRef`). -/
structure NameRef where
  id : Nat
deriving DecidableEq

/-- Syntax node for an item (`ast::Item`). -/
structure Item where
  id : Nat
deriving DecidableEq

/-- Syntax node for a record expression (`ast::RecordExpr`). -/
structure RecordExpr where
  id : Nat
deriving DecidableEq

/-- Syntax node for a module declaration (`ast::Module`). -/
structure Module where
  id : Nat
deriving DecidableEq

/-- Syntax node for a generic argument list (`ast::GenericArgList`). -/
structure GenericArgList where
  id : Nat
deriving DecidableEq

end ast

/-- The HIR database interface (`dyn HirDatabase`), restricted to the queries
this file's code performs. -/
structure HirDatabase where
  enum_variants : hir.Enum → List hir.Variant
  variant_name : hir.Variant → hir.Name
  impl_self_ty : hir.Impl → hir.Ty

/-- `hir::Enum::variants(db)`. -/
def hir.Enum.variants (e : hir.Enum) (db : HirDatabase) : List hir.Variant :=
  db.enum_variants e

/-- `hir::Variant::name(db)`. -/
def hir.Variant.name (v : hir.Variant) (db : HirDatabase) : hir.Name :=
  db.variant_name v

/-- `hir::Impl::self_ty(db)`. -/
def hir.Impl.self_ty (i : hir.Impl) (db : HirDatabase) : hir.Ty :=
  db.impl_self_ty i

/-- The semantics layer (`Semantics`), restricted to the one query this
file's code performs: resolving an `ast::Impl` to its HIR definition. -/
structure Semantics where
  to_def : ast.Impl → Option hir.Impl

namespace hir

/-- The current module (`hir::Module`), exposing the minimal-import-path
query `find_use_path` used by the variant path enumerator. -/
structure Module where
  find_use_path : HirDatabase → hir.ModuleDef → Option hir.ModPath

end hir

/-- The three visibility tiers returned by the Visibility Oracle
(`crate::context::Visible`). -/
inductive Visible where
  | Yes
  | Editable
  | No
deriving DecidableEq

/-- The possible arguments of the polymorphic oracle query
`ctx.is_visible(&item)`: one constructor per symbol kind that any append
method ever passes (or, per the spec, should pass) to the oracle. -/
inductive VisSymbol where
  | Macro (m : hir.Macro)
  | Function (f : hir.Function)
  | Const (c : hir.Const)
  | TypeAlias (t : hir.TypeAlias)
  | Field (f : hir.Field)
  | Variant (v : hir.Variant)
  | Struct (s : hir.Struct)
  | Union (u : hir.Union)
deriving DecidableEq

/-- Snippet capability token (`SnippetCap`); carries no data relevant here. -/
structure SnippetCap where
deriving DecidableEq

/-- Per-request configuration, restricted to the one field this file's code
reads (`ctx.config.snippet_cap`). -/
structure CompletionConfig where
  snippet_cap : Option SnippetCap
deriving DecidableEq

/-- A source text range; opaque to this core. -/
abbrev TextRange := Nat

/-- The completion context handed to every method: configuration, the cursor's
source range, and the external collaborators (database, semantics, current
module, the Visibility Oracle `is_visible`, and the doc-hidden query
`is_scope_def_hidden`). -/
structure CompletionContext where
  config : CompletionConfig
  source_range : TextRange
  db : HirDatabase
  sema : Semantics
  module : hir.Module
  is_visible : VisSymbol → Visible
  is_scope_def_hidden : hir.ScopeDef → Bool

/-- `ide_db::SymbolKind`, restricted to the tags this file constructs. -/
inductive SymbolKind where
  | LifetimeParam
  | Label
deriving DecidableEq

/-- The kind tag of a completion item. -/
inductive CompletionItemKind where
  | Keyword
  | SymbolKind (sk : SymbolKind)
deriving DecidableEq

/-- Modelled from the spec: the candidate builder (`crate::item::Builder`,
which lives outside this file). The spec treats candidates as opaque rendered
units; the builder records the kind, range, label, the text to insert, and
whether that text is a snippet. -/
structure Builder where
  kind : CompletionItemKind
  source_range : TextRange
  label : String
  inserted_text : Option String
  is_snippet : Bool
deriving DecidableEq

/-- Modelled from the spec: a fully built candidate (`CompletionItem`, built
outside this file); it carries exactly the data its builder recorded. -/
structure CompletionItem where
  kind : CompletionItemKind
  source_range : TextRange
  label : String
  inserted_text : Option String
  is_snippet : Bool
deriving DecidableEq

/-- Modelled from the spec: `CompletionItem::new(kind, range, label)` returns
a fresh builder with no insert text set. -/
def CompletionItem.new (kind : CompletionItemKind) (source_range : TextRange)
    (label : String) : Builder :=
  { kind := kind, source_range := source_range, label := label,
    inserted_text := none, is_snippet := false }

/-- Modelled from the spec: `Builder::insert_snippet(cap, s)` records `s` as
the (snippet) text to insert; the capability token is only evidence that
snippets are allowed. -/
def Builder.insert_snippet (b : Builder) (_cap : SnippetCap) (s : String) :
    Builder :=
  { b with inserted_text := some s, is_snippet := true }

/-- Modelled from the spec: `Builder::insert_text(s)` records `s` as the
plain text to insert. -/
def Builder.insert_text (b : Builder) (s : String) : Builder :=
  { b with inserted_text := some s }

/-- Modelled from the spec: `Builder::build()` finishes the builder into a
candidate, preserving the recorded data. -/
def Builder.build (b : Builder) : CompletionItem :=
  { kind := b.kind, source_range := b.source_range, label := b.label,
    inserted_text := b.inserted_text, is_snippet := b.is_snippet }

/-- The render context threaded into every renderer
(`crate::render::RenderContext`): the completion context plus the
private-editable flag. -/
structure RenderContext where
  completion : CompletionContext
  is_private_editable : Bool

/-- `RenderContext::new(ctx)`: flag initially unset. -/
def RenderContext.new (ctx : CompletionContext) : RenderContext :=
  { completion := ctx, is_private_editable := false }

/-- `RenderContext::private_editable(b)`: set the flag to `b`. -/
def RenderContext.private_editable (rc : RenderContext) (b : Bool) :
    RenderContext :=
  { rc with is_private_editable := b }

/-- The external render functions of `crate::render`, one field per function
this file calls, with the argument lists of the call sites. -/
structure Renderers where
  render_macro : RenderContext → hir.Name → hir.Macro → Builder
  render_fn : RenderContext → Option hir.Name → hir.Function → Builder
  render_method :
    RenderContext → Option hir.Name → Option hir.Name → hir.Function → Builder
  render_const : RenderContext → hir.Const → Option CompletionItem
  render_type_alias : RenderContext → hir.TypeAlias → Option CompletionItem
  render_type_alias_with_eq :
    RenderContext → hir.TypeAlias → Option CompletionItem
  render_variant_lit :
    RenderContext → Option hir.Name → hir.Variant → Option hir.ModPath →
      Option Builder
  render_field :
    RenderContext → Option hir.Name → hir.Field → hir.Ty → CompletionItem
  render_struct_literal :
    RenderContext → hir.Struct → Option hir.ModPath → Option hir.Name →
      Option Builder
  render_union_literal :
    RenderContext → hir.Union → Option hir.ModPath → Option hir.Name →
      Option CompletionItem
  render_tuple_field :
    RenderContext → Option hir.Name → Nat → hir.Ty → CompletionItem
  render_variant_pat :
    RenderContext → hir.Variant → Option hir.Name → Option hir.ModPath →
      Option CompletionItem
  render_struct_pat :
    RenderContext → hir.Struct → Option hir.Name → Option CompletionItem
  render_resolution : RenderContext → hir.Name → hir.ScopeDef → Builder
  render_resolution_simple : RenderContext → hir.Name → hir.ScopeDef → Builder

/-- The completion accumulator (`Completions`): an insertion-ordered buffer
of candidates. -/
structure Completions where
  buf : List CompletionItem
deriving DecidableEq

/-- `Completions::add`: push one candidate at the end of the buffer. -/
def Completions.add (self : Completions) (item : CompletionItem) :
    Completions :=
  { buf := self.buf ++ [item] }

/-- `Completions::add_opt`: push the candidate if present, else no change. -/
def Completions.add_opt (self : Completions) (item : Option CompletionItem) :
    Completions :=
  match item with
  | some item => Completions.add self item
  | none => self

/-- `Completions::add_all`: push each candidate in order. -/
def Completions.add_all (self : Completions) (items : List CompletionItem) :
    Completions :=
  items.foldl Completions.add self

/-- `Builder::add_to(acc)`: build the candidate and push it. -/
def Builder.add_to (b : Builder) (acc : Completions) : Completions :=
  Completions.add acc b.build

/-- `Completions::add_keyword`. -/
def Completions.add_keyword (self : Completions) (ctx : CompletionContext)
    (keyword : String) : Completions :=
  let item := CompletionItem.new CompletionItemKind.Keyword ctx.source_range
    keyword
  Builder.add_to item self

/-- `Completions::add_nameref_keywords_with_colon`. -/
def Completions.add_nameref_keywords_with_colon (self : Completions)
    (ctx : CompletionContext) : Completions :=
  ["self::", "super::", "crate::"].foldl
    (fun acc kw => Completions.add_keyword acc ctx kw) self

/-- `Completions::add_nameref_keywords`. -/
def Completions.add_nameref_keywords (self : Completions)
    (ctx : CompletionContext) : Completions :=
  ["self", "super", "crate"].foldl
    (fun acc kw => Completions.add_keyword acc ctx kw) self

/-- `Completions::add_keyword_snippet_expr`: with the snippet capability,
insert the snippet, appending a `;` exactly when the snippet ends in a
closing brace and the `let`-binding is incomplete; without the capability,
insert the bare keyword when the snippet holds a `$` placeholder and the
literal snippet otherwise. -/
def Completions.add_keyword_snippet_expr (self : Completions)
    (ctx : CompletionContext) (kw : String) (snippet : String)
    (incomplete_let : Bool) : Completions :=
  let item := CompletionItem.new CompletionItemKind.Keyword ctx.source_range kw
  let item :=
    match ctx.config.snippet_cap with
    | some cap =>
      if snippet.endsWith "\x7d" && incomplete_let then
        -- complete block expression snippets with a trailing semicolon,
        -- if inside an incomplete let
        Builder.insert_snippet item cap (snippet ++ ";")
      else
        Builder.insert_snippet item cap snippet
    | none =>
      Builder.insert_text item (if snippet.contains '$' then kw else snippet)
  Builder.add_to item self

/-- `Completions::add_keyword_snippet`. -/
def Completions.add_keyword_snippet (self : Completions)
    (ctx : CompletionContext) (kw : String) (snippet : String) : Completions :=
  let item := CompletionItem.new CompletionItemKind.Keyword ctx.source_range kw
  let item :=
    match ctx.config.snippet_cap with
    | some cap => Builder.insert_snippet item cap snippet
    | none =>
      Builder.insert_text item (if snippet.contains '$' then kw else snippet)
  Builder.add_to item self

/-- The three-arm visibility match shared verbatim by every gated append
method: `Visible::Yes => false, Visible::Editable => true,
Visible::No => return` — the early return is modelled as `none`. -/
def visible_flag : Visible → Option Bool
  | Visible.Yes => some false
  | Visible.Editable => some true
  | Visible.No => none

/-- `Completions::add_resolution`: gated on `ctx.is_scope_def_hidden`. -/
def Completions.add_resolution (R : Renderers) (self : Completions)
    (ctx : CompletionContext) (local_name : hir.Name)
    (resolution : hir.ScopeDef) : Completions :=
  if ctx.is_scope_def_hidden resolution then
    self
  else
    Completions.add self
      (Builder.build <| R.render_resolution (RenderContext.new ctx) local_name
        resolution)

/-- `Completions::add_resolution_simple`: gated on
`ctx.is_scope_def_hidden`. -/
def Completions.add_resolution_simple (R : Renderers) (self : Completions)
    (ctx : CompletionContext) (local_name : hir.Name)
    (resolution : hir.ScopeDef) : Completions :=
  if ctx.is_scope_def_hidden resolution then
    self
  else
    Completions.add self
      (Builder.build <| R.render_resolution_simple (RenderContext.new ctx)
        local_name resolution)

/-- `Completions::add_macro`: gated on `ctx.is_visible(&mac)`. -/
def Completions.add_macro (R : Renderers) (self : Completions)
    (ctx : CompletionContext) (mac : hir.Macro) (local_name : hir.Name) :
    Completions :=
  match visible_flag (ctx.is_visible (VisSymbol.Macro mac)) with
  | none => self
  | some is_private_editable =>
    let b := R.render_macro
      ((RenderContext.new ctx).private_editable is_private_editable)
      local_name mac
    Completions.add self b.build

/-- `Completions::add_function`: gated on `ctx.is_visible(&func)`. -/
def Completions.add_function (R : Renderers) (self : Completions)
    (ctx : CompletionContext) (func : hir.Function)
    (local_name : Option hir.Name) : Completions :=
  match visible_flag (ctx.is_visible (VisSymbol.Function func)) with
  | none => self
  | some is_private_editable =>
    let b := R.render_fn
      ((RenderContext.new ctx).private_editable is_private_editable)
      local_name func
    Completions.add self b.build

/-- `Completions::add_method`: gated on `ctx.is_visible(&func)`. -/
def Completions.add_method (R : Renderers) (self : Completions)
    (ctx : CompletionContext) (func : hir.Function)
    (receiver : Option hir.Name) (local_name : Option hir.Name) :
    Completions :=
  match visible_flag (ctx.is_visible (VisSymbol.Function func)) with
  | none => self
  | some is_private_editable =>
    let b := R.render_method
      ((RenderContext.new ctx).private_editable is_private_editable)
      receiver local_name func
    Completions.add self b.build

/-- `Completions::add_const`: gated on `ctx.is_visible(&konst)`. -/
def Completions.add_const (R : Renderers) (self : Completions)
    (ctx : CompletionContext) (konst : hir.Const) : Completions :=
  match visible_flag (ctx.is_visible (VisSymbol.Const konst)) with
  | none => self
  | some is_private_editable =>
    Completions.add_opt self
      (R.render_const
        ((RenderContext.new ctx).private_editable is_private_editable) konst)

/-- `Completions::add_type_alias`: gated on `ctx.is_visible(&type_alias)`. -/
def Completions.add_type_alias (R : Renderers) (self : Completions)
    (ctx : CompletionContext) (type_alias : hir.TypeAlias) : Completions :=
  match visible_flag (ctx.is_visible (VisSymbol.TypeAlias type_alias)) with
  | none => self
  | some is_private_editable =>
    Completions.add_opt self
      (R.render_type_alias
        ((RenderContext.new ctx).private_editable is_private_editable)
        type_alias)

/-- `Completions::add_type_alias_with_eq`: no visibility gate in the
source. -/
def Completions.add_type_alias_with_eq (R : Renderers) (self : Completions)
    (ctx : CompletionContext) (type_alias : hir.TypeAlias) : Completions :=
  Completions.add_opt self
    (R.render_type_alias_with_eq (RenderContext.new ctx) type_alias)

/-- `Completions::add_qualified_enum_variant`: no visibility gate in the
source; appends whatever `render_variant_lit` produces. -/
def Completions.add_qualified_enum_variant (R : Renderers)
    (self : Completions) (ctx : CompletionContext) (variant : hir.Variant)
    (path : hir.ModPath) : Completions :=
  match R.render_variant_lit (RenderContext.new ctx) none variant (some path)
    with
  | some builder => Completions.add self builder.build
  | none => self

/-- `Completions::add_enum_variant`: no visibility gate in the source. -/
def Completions.add_enum_variant (R : Renderers) (self : Completions)
    (ctx : CompletionContext) (variant : hir.Variant)
    (local_name : Option hir.Name) : Completions :=
  match R.render_variant_lit (RenderContext.new ctx) local_name variant none
    with
  | some builder => Completions.add self builder.build
  | none => self

/-- `Completions::add_field`: gated on `ctx.is_visible(&field)`. -/
def Completions.add_field (R : Renderers) (self : Completions)
    (ctx : CompletionContext) (receiver : Option hir.Name)
    (field : hir.Field) (ty : hir.Ty) : Completions :=
  match visible_flag (ctx.is_visible (VisSymbol.Field field)) with
  | none => self
  | some is_private_editable =>
    let item := R.render_field
      ((RenderContext.new ctx).private_editable is_private_editable)
      receiver field ty
    Completions.add self item

/-- `Completions::add_struct_literal`: no visibility gate in the source. -/
def Completions.add_struct_literal (R : Renderers) (self : Completions)
    (ctx : CompletionContext) (strukt : hir.Struct)
    (path : Option hir.ModPath) (local_name : Option hir.Name) :
    Completions :=
  match R.render_struct_literal (RenderContext.new ctx) strukt path local_name
    with
  | some builder => Completions.add self builder.build
  | none => self

/-- `Completions::add_union_literal`: no visibility gate in the source. -/
def Completions.add_union_literal (R : Renderers) (self : Completions)
    (ctx : CompletionContext) (un : hir.Union) (path : Option hir.ModPath)
    (local_name : Option hir.Name) : Completions :=
  let item := R.render_union_literal (RenderContext.new ctx) un path local_name
  Completions.add_opt self item

/-- `Completions::add_tuple_field`. -/
def Completions.add_tuple_field (R : Renderers) (self : Completions)
    (ctx : CompletionContext) (receiver : Option hir.Name) (field : Nat)
    (ty : hir.Ty) : Completions :=
  let item := R.render_tuple_field (RenderContext.new ctx) receiver field ty
  Completions.add self item

/-- `Completions::add_lifetime`. -/
def Completions.add_lifetime (self : Completions) (ctx : CompletionContext)
    (name : hir.Name) : Completions :=
  Builder.add_to
    (CompletionItem.new (CompletionItemKind.SymbolKind SymbolKind.LifetimeParam)
      ctx.source_range name) self

/-- `Completions::add_label`. -/
def Completions.add_label (self : Completions) (ctx : CompletionContext)
    (name : hir.Name) : Completions :=
  Builder.add_to
    (CompletionItem.new (CompletionItemKind.SymbolKind SymbolKind.Label)
      ctx.source_range name) self

/-- `Completions::add_variant_pat`: no visibility gate in the source. -/
def Completions.add_variant_pat (R : Renderers) (self : Completions)
    (ctx : CompletionContext) (variant : hir.Variant)
    (local_name : Option hir.Name) : Completions :=
  Completions.add_opt self
    (R.render_variant_pat (RenderContext.new ctx) variant local_name none)

/-- `Completions::add_qualified_variant_pat`: no visibility gate in the
source. -/
def Completions.add_qualified_variant_pat (R : Renderers) (self : Completions)
    (ctx : CompletionContext) (variant : hir.Variant) (path : hir.ModPath) :
    Completions :=
  let path := some path
  Completions.add_opt self
    (R.render_variant_pat (RenderContext.new ctx) variant none path)

/-- `Completions::add_struct_pat`: no visibility gate in the source. -/
def Completions.add_struct_pat (R : Renderers) (self : Completions)
    (ctx : CompletionContext) (strukt : hir.Struct)
    (local_name : Option hir.Name) : Completions :=
  Completions.add_opt self
    (R.render_struct_pat (RenderContext.new ctx) strukt local_name)

/-- `enum_variants_with_paths`: call `cb` for each variant of `enum_` with a
path to the variant. Step 1 emits `Self::<variant>` for every variant when
the enclosing impl's self type is exactly this enum; step 2 emits each
variant's minimal import path when it resolves to more than one segment. -/
def enum_variants_with_paths (acc : Completions) (ctx : CompletionContext)
    (enum_ : hir.Enum) (impl_ : Option ast.Impl)
    (cb : Completions → CompletionContext → hir.Variant → hir.ModPath →
      Completions) : Completions :=
  let variants := hir.Enum.variants enum_ ctx.db
  let acc :=
    match impl_.bind ctx.sema.to_def with
    | some impl_ =>
      if (hir.Impl.self_ty impl_ ctx.db).as_adt = some (hir.Adt.Enum enum_)
      then
        variants.foldl
          (fun acc variant =>
            let self_path := hir.ModPath.from_segments hir.PathKind.Plain
              [hir.known.SELF_TYPE, hir.Variant.name variant ctx.db]
            cb acc ctx variant self_path)
          acc
      else acc
    | none => acc
  variants.foldl
    (fun acc variant =>
      match ctx.module.find_use_path ctx.db (hir.ModuleDef.Variant variant)
        with
      | some path =>
        -- Variants with trivial paths are already added by the existing
        -- completion logic, so we should avoid adding these twice
        if path.segments.length > 1 then cb acc ctx variant path else acc
      | none => acc)
    acc

/-- Sub-context attached to an expression-position path
(`crate::context::ExprCtx`); opaque to the dispatch layer. -/
structure ExprCtx where
  id : Nat
deriving DecidableEq

/-- Sub-context attached to an attribute-position path; opaque here. -/
structure AttrCtx where
  id : Nat
deriving DecidableEq

/-- The set of derives already present at a derive-position path; opaque
here. -/
structure ExistingDerives where
  id : Nat
deriving DecidableEq

/-- Sub-context of a `receiver.<cursor>` access
(`crate::context::DotAccess`); opaque here. -/
structure DotAccess where
  id : Nat
deriving DecidableEq

/-- The target of a type ascription slot; opaque here. -/
structure Ascription where
  id : Nat
deriving DecidableEq

/-- Pattern sub-context (`crate::context::PatternContext`); opaque here. -/
structure PatternContext where
  id : Nat
deriving DecidableEq

/-- Where a type-position path sits (`crate::context::TypeLocation`). -/
inductive TypeLocation where
  | TupleField
  | TypeAscription (ascription : Ascription)
  | GenericArgList (g : Option ast.GenericArgList)
  | TypeBound
  | ImplTarget
  | ImplTrait
  | Other
deriving DecidableEq

/-- Where an item-position path sits (`crate::context::ItemListKind`). The
dispatch only ever distinguishes `TraitImpl`; the remaining variants are
collapsed into `Other`. -/
inductive ItemListKind where
  | TraitImpl (impl_ : Option ast.Impl)
  | Other
deriving DecidableEq

/-- The role of a reference-position path (`crate::context::PathKind`). -/
inductive PathKind where
  | Expr (expr_ctx : ExprCtx)
  | Type (location : TypeLocation)
  | Attr (attr_ctx : AttrCtx)
  | Derive (existing_derives : ExistingDerives)
  | Item (kind : ItemListKind)
  | Pat (pat_ctx : PatternContext)
  | Vis (has_in_token : Bool)
  | Use
deriving DecidableEq

/-- A classified path context (`crate::context::PathCompletionCtx`),
restricted to the one field this file reads. -/
structure PathCompletionCtx where
  kind : PathKind
deriving DecidableEq

/-- The nested tag of a name-declaration context
(`crate::context::NameKind`). -/
inductive NameKind where
  | Const
  | ConstParam
  | Enum
  | Function
  | IdentPat (pattern_ctx : PatternContext)
  | MacroDef
  | MacroRules
  | Module (mod_under_caret : ast.Module)
  | RecordField
  | Rename
  | SelfParam
  | Static
  | Struct
  | Trait
  | TypeAlias
  | TypeParam
  | Union
  | Variant
deriving DecidableEq

/-- A name-declaration context (`crate::context::NameContext`). -/
structure NameContext where
  name : Option ast.Name
  kind : NameKind
deriving DecidableEq

/-- The nested tag of a name-reference context
(`crate::context::NameRefKind`). -/
inductive NameRefKind where
  | Path (path_ctx : PathCompletionCtx)
  | DotAccess (dot_access : DotAccess)
  | Keyword (item : ast.Item)
  | RecordExpr (record_expr : ast.RecordExpr)
  | Pattern (pattern_ctx : PatternContext)
deriving DecidableEq

/-- A name-reference context (`crate::context::NameRefContext`). -/
structure NameRefContext where
  nameref : Option ast.NameRef
  kind : NameRefKind
deriving DecidableEq

/-- The external strategy functions of the sibling completion modules, one
field per function the two dispatch entry points invoke, with the argument
lists of the call sites. Each takes and returns the accumulator. -/
structure Strategies where
  import_on_the_fly_path :
    Completions → CompletionContext → PathCompletionCtx → Completions
  import_on_the_fly_dot :
    Completions → CompletionContext → DotAccess → Completions
  import_on_the_fly_pat :
    Completions → CompletionContext → PatternContext → Completions
  complete_undotted_self :
    Completions → CompletionContext → PathCompletionCtx → ExprCtx →
      Completions
  complete_expr_path :
    Completions → CompletionContext → PathCompletionCtx → ExprCtx →
      Completions
  complete_item_list_in_expr :
    Completions → CompletionContext → PathCompletionCtx → ExprCtx →
      Completions
  complete_record_expr_func_update :
    Completions → CompletionContext → PathCompletionCtx → ExprCtx →
      Completions
  complete_expr_snippet :
    Completions → CompletionContext → PathCompletionCtx → ExprCtx →
      Completions
  complete_type_path :
    Completions → CompletionContext → PathCompletionCtx → TypeLocation →
      Completions
  complete_field_list_tuple_variant :
    Completions → CompletionContext → PathCompletionCtx → Completions
  complete_ascribed_type :
    Completions → CompletionContext → PathCompletionCtx → Ascription →
      Completions
  complete_attribute :
    Completions → CompletionContext → PathCompletionCtx → AttrCtx →
      Completions
  complete_derive :
    Completions → CompletionContext → PathCompletionCtx → ExistingDerives →
      Completions
  complete_item_list :
    Completions → CompletionContext → PathCompletionCtx → ItemListKind →
      Completions
  complete_item_snippet :
    Completions → CompletionContext → PathCompletionCtx → ItemListKind →
      Completions
  complete_trait_impl_item_by_name :
    Completions → CompletionContext → PathCompletionCtx →
      Option ast.NameRef → Option ast.Impl → Completions
  complete_pattern_path :
    Completions → CompletionContext → PathCompletionCtx → Completions
  complete_vis_path :
    Completions → CompletionContext → PathCompletionCtx → Bool → Completions
  complete_use_tree :
    Completions → CompletionContext → PathCompletionCtx →
      Option ast.NameRef → Completions
  complete_dot : Completions → CompletionContext → DotAccess → Completions
  complete_postfix :
    Completions → CompletionContext → DotAccess → Completions
  complete_for_and_where :
    Completions → CompletionContext → ast.Item → Completions
  complete_record_expr_fields :
    Completions → CompletionContext → ast.RecordExpr → Completions
  complete_fn_param :
    Completions → CompletionContext → PatternContext → Completions
  complete_pattern :
    Completions → CompletionContext → PatternContext → Completions
  complete_record_pattern_fields :
    Completions → CompletionContext → PatternContext → Completions
  complete_trait_impl_const :
    Completions → CompletionContext → Option ast.Name → Completions
  complete_trait_impl_fn :
    Completions → CompletionContext → Option ast.Name → Completions
  complete_trait_impl_type_alias :
    Completions → CompletionContext → Option ast.Name → Completions
  complete_mod :
    Completions → CompletionContext → ast.Module → Completions
  complete_field_list_record_variant :
    Completions → CompletionContext → Completions

/-- `complete_patterns`: the shared pattern-completion bundle invoked from
both dispatch entry points. -/
def complete_patterns (S : Strategies) (acc : Completions)
    (ctx : CompletionContext) (pattern_ctx : PatternContext) : Completions :=
  let acc := S.import_on_the_fly_pat acc ctx pattern_ctx
  let acc := S.complete_fn_param acc ctx pattern_ctx
  let acc := S.complete_pattern acc ctx pattern_ctx
  S.complete_record_pattern_fields acc ctx pattern_ctx

/-- `complete_name`: the dispatch entry point for name-declaration
contexts. -/
def complete_name (S : Strategies) (acc : Completions)
    (ctx : CompletionContext) (nctx : NameContext) : Completions :=
  match nctx.kind with
  | NameKind.Const => S.complete_trait_impl_const acc ctx nctx.name
  | NameKind.Function => S.complete_trait_impl_fn acc ctx nctx.name
  | NameKind.IdentPat pattern_ctx => complete_patterns S acc ctx pattern_ctx
  | NameKind.Module mod_under_caret => S.complete_mod acc ctx mod_under_caret
  | NameKind.TypeAlias => S.complete_trait_impl_type_alias acc ctx nctx.name
  | NameKind.RecordField => S.complete_field_list_record_variant acc ctx
  | NameKind.ConstParam
  | NameKind.Enum
  | NameKind.MacroDef
  | NameKind.MacroRules
  | NameKind.Rename
  | NameKind.SelfParam
  | NameKind.Static
  | NameKind.Struct
  | NameKind.Trait
  | NameKind.TypeParam
  | NameKind.Union
  | NameKind.Variant => acc

/-- `complete_name_ref`: the dispatch entry point for name-reference
contexts. -/
def complete_name_ref (S : Strategies) (acc : Completions)
    (ctx : CompletionContext) (nrctx : NameRefContext) : Completions :=
  match nrctx.kind with
  | NameRefKind.Path path_ctx =>
    let acc := S.import_on_the_fly_path acc ctx path_ctx
    match path_ctx.kind with
    | PathKind.Expr expr_ctx =>
      let acc := S.complete_undotted_self acc ctx path_ctx expr_ctx
      let acc := S.complete_expr_path acc ctx path_ctx expr_ctx
      let acc := S.complete_item_list_in_expr acc ctx path_ctx expr_ctx
      let acc := S.complete_record_expr_func_update acc ctx path_ctx expr_ctx
      S.complete_expr_snippet acc ctx path_ctx expr_ctx
    | PathKind.Type location =>
      let acc := S.complete_type_path acc ctx path_ctx location
      match location with
      | TypeLocation.TupleField =>
        S.complete_field_list_tuple_variant acc ctx path_ctx
      | TypeLocation.TypeAscription ascription =>
        S.complete_ascribed_type acc ctx path_ctx ascription
      | TypeLocation.GenericArgList _
      | TypeLocation.TypeBound
      | TypeLocation.ImplTarget
      | TypeLocation.ImplTrait
      | TypeLocation.Other => acc
    | PathKind.Attr attr_ctx => S.complete_attribute acc ctx path_ctx attr_ctx
    | PathKind.Derive existing_derives =>
      S.complete_derive acc ctx path_ctx existing_derives
    | PathKind.Item kind =>
      let acc := S.complete_item_list acc ctx path_ctx kind
      let acc := S.complete_item_snippet acc ctx path_ctx kind
      match kind with
      | ItemListKind.TraitImpl impl_ =>
        S.complete_trait_impl_item_by_name acc ctx path_ctx nrctx.nameref
          impl_
      | ItemListKind.Other => acc
    | PathKind.Pat _ => S.complete_pattern_path acc ctx path_ctx
    | PathKind.Vis has_in_token =>
      S.complete_vis_path acc ctx path_ctx has_in_token
    | PathKind.Use => S.complete_use_tree acc ctx path_ctx nrctx.nameref
  | NameRefKind.DotAccess dot_access =>
    let acc := S.import_on_the_fly_dot acc ctx dot_access
    let acc := S.complete_dot acc ctx dot_access
    S.complete_postfix acc ctx dot_access
  | NameRefKind.Keyword item => S.complete_for_and_where acc ctx item
  | NameRefKind.RecordExpr record_expr =>
    S.complete_record_expr_fields acc ctx record_expr
  | NameRefKind.Pattern pattern_ctx => complete_patterns S acc ctx pattern_ctx

/-- The (variant, path) pairs at which step 2 of `enum_variants_with_paths`
invokes the callback, in order: each variant whose minimal import path from
the current module resolves to strictly more than one segment, paired with
that path. -/
def step2Calls (ctx : CompletionContext) (enum_ : hir.Enum) :
    List (hir.Variant × hir.ModPath) :=
  (hir.Enum.variants enum_ ctx.db).filterMap fun variant =>
    match ctx.module.find_use_path ctx.db (hir.ModuleDef.Variant variant) with
    | some path =>
      if path.segments.length > 1 then some (variant, path) else none
    | none => none

/-- Folding the step-1 body of `enum_variants_with_paths` over a variant list
is folding the callback over the corresponding (variant, `Self` path)
pairs. -/
theorem foldl_self_paths_eq (ctx : CompletionContext)
    (cb : Completions → CompletionContext → hir.Variant → hir.ModPath →
      Completions)
    (vs : List hir.Variant) (acc : Completions) :
    vs.foldl
      (fun acc variant =>
        cb acc ctx variant (hir.ModPath.from_segments hir.PathKind.Plain
          [hir.known.SELF_TYPE, hir.Variant.name variant ctx.db]))
      acc
    = (vs.map fun v =>
        (v, hir.ModPath.from_segments hir.PathKind.Plain
          [hir.known.SELF_TYPE, hir.Variant.name v ctx.db])).foldl
        (fun acc vp => cb acc ctx vp.1 vp.2) acc := by
  rw [List.foldl_map]

/-- Folding the step-2 body of `enum_variants_with_paths` over a variant list
is folding the callback over the filtered (variant, path) pairs. -/
theorem foldl_step2_eq (ctx : CompletionContext)
    (cb : Completions → CompletionContext → hir.Variant → hir.ModPath →
      Completions)
    (vs : List hir.Variant) (acc : Completions) :
    vs.foldl
      (fun acc variant =>
        match ctx.module.find_use_path ctx.db (hir.ModuleDef.Variant variant)
          with
        | some path =>
          if path.segments.length > 1 then cb acc ctx variant path else acc
        | none => acc)
      acc
    = (vs.filterMap fun variant =>
        match ctx.module.find_use_path ctx.db (hir.ModuleDef.Variant variant)
          with
        | some path =>
          if path.segments.length > 1 then some (variant, path) else none
        | none => none).foldl
        (fun acc vp => cb acc ctx vp.1 vp.2) acc := by
  induction vs generalizing acc with
  | nil => rfl
  | cons v vs ih =>
    simp only [List.foldl_cons, List.filterMap_cons]
    cases hf : ctx.module.find_use_path ctx.db (hir.ModuleDef.Variant v) with
    | none =>
      simp only [hf]
      exact ih acc
    | some path =>
      simp only [hf]
      by_cases hlen : path.segments.length > 1
      · rw [if_pos hlen, if_pos hlen]
        exact ih _
      · rw [if_neg hlen, if_neg hlen]
        exact ih acc

/-- C3: when an enclosing impl block resolves and its self type is exactly
the enum being completed, `enum_variants_with_paths` invokes the callback
with the two-segment path `Self::<variant-name>` for every variant of the
enum — unconditionally, independent of import-path length — and all of these
`Self::` invocations happen before any step-2 import-path invocation. -/
theorem self_variant_paths_first (acc : Completions)
    (ctx : CompletionContext) (enum_ : hir.Enum) (impl_ : Option ast.Impl)
    (i : hir.Impl)
    (cb : Completions → CompletionContext → hir.Variant → hir.ModPath →
      Completions)
    (h1 : impl_.bind ctx.sema.to_def = some i)
    (h2 : (hir.Impl.self_ty i ctx.db).as_adt = some (hir.Adt.Enum enum_)) :
    enum_variants_with_paths acc ctx enum_ impl_ cb
      = (((hir.Enum.variants enum_ ctx.db).map fun v =>
            (v, hir.ModPath.from_segments hir.PathKind.Plain
              [hir.known.SELF_TYPE, hir.Variant.name v ctx.db]))
          ++ step2Calls ctx enum_).foldl
          (fun acc vp => cb acc ctx vp.1 vp.2) acc := by
  simp only [enum_variants_with_paths, step2Calls, h1]
  rw [if_pos h2]
  rw [List.foldl_append, foldl_self_paths_eq, foldl_step2_eq]

/-- C4: step 2 of `enum_variants_with_paths` invokes the callback exactly for
the variants whose minimal import path resolves with strictly more than one
segment; a variant whose path is a single segment, or does not resolve at
all, is silently skipped. With no enclosing impl block the whole run consists
of exactly these step-2 invocations. -/
theorem step2_calls_multi_segment_only :
    (∀ (acc : Completions) (ctx : CompletionContext) (enum_ : hir.Enum)
       (cb : Completions → CompletionContext → hir.Variant → hir.ModPath →
         Completions),
       enum_variants_with_paths acc ctx enum_ none cb
         = (step2Calls ctx enum_).foldl
             (fun acc vp => cb acc ctx vp.1 vp.2) acc) ∧
    (∀ (ctx : CompletionContext) (enum_ : hir.Enum) (v : hir.Variant)
       (p : hir.ModPath),
       (v, p) ∈ step2Calls ctx enum_ ↔
         v ∈ hir.Enum.variants enum_ ctx.db ∧
         ctx.module.find_use_path ctx.db (hir.ModuleDef.Variant v) = some p ∧
         p.segments.length > 1) := by
  constructor
  · intro acc ctx enum_ cb
    simp only [enum_variants_with_paths, step2Calls, Option.none_bind]
    rw [foldl_step2_eq]
  · intro ctx enum_ v p
    unfold step2Calls
    rw [List.mem_filterMap]
    constructor
    · rintro ⟨a, ha, heq⟩
      cases hf : ctx.module.find_use_path ctx.db (hir.ModuleDef.Variant a)
        with
      | none =>
        simp only [hf] at heq
        exact absurd heq (by simp)
      | some q =>
        simp only [hf] at heq
        by_cases hlen : q.segments.length > 1
        · rw [if_pos hlen] at heq
          simp only [Option.some.injEq, Prod.mk.injEq] at heq
          obtain ⟨rfl, rfl⟩ := heq
          exact ⟨ha, hf, hlen⟩
        · rw [if_neg hlen] at heq
          exact absurd heq (by simp)
    · rintro ⟨hv, hf, hlen⟩
      refine ⟨v, hv, ?_⟩
      simp only [hf]
      rw [if_pos hlen]

/-- C5: with the snippet capability enabled, `add_keyword_snippet_expr`
appends exactly one trailing semicolon to the inserted snippet body if and
only if the body ends in a closing brace and the incomplete-let flag is set;
in every other enabled-capability case the snippet body is inserted
unmodified (and always as a snippet). -/
theorem keyword_snippet_expr_let_semi (acc : Completions)
    (ctx : CompletionContext) (kw snippet : String) (incomplete_let : Bool)
    (cap : SnippetCap) (h : ctx.config.snippet_cap = some cap) :
    Completions.add_keyword_snippet_expr acc ctx kw snippet incomplete_let
      = Completions.add acc
          { kind := CompletionItemKind.Keyword,
            source_range := ctx.source_range, label := kw,
            inserted_text := some
              (if snippet.endsWith "\x7d" && incomplete_let then
                snippet ++ ";"
              else snippet),
            is_snippet := true } := by
  simp only [Completions.add_keyword_snippet_expr, h]
  by_cases hc : snippet.endsWith "\x7d" && incomplete_let
  · rw [if_pos hc, if_pos hc]
    rfl
  · rw [if_neg hc, if_neg hc]
    rfl

/-- C6: with the snippet capability disabled, both keyword-snippet methods
insert the bare keyword when the snippet body contains a `$` placeholder
marker, and the full literal body when it contains none. -/
theorem keyword_snippet_degradation :
    (∀ (acc : Completions) (ctx : CompletionContext) (kw snippet : String)
       (incomplete_let : Bool),
       ctx.config.snippet_cap = none →
       Completions.add_keyword_snippet_expr acc ctx kw snippet incomplete_let
         = Completions.add acc
             { kind := CompletionItemKind.Keyword,
               source_range := ctx.source_range, label := kw,
               inserted_text :=
                 some (if snippet.contains '$' then kw else snippet),
               is_snippet := false }) ∧
    (∀ (acc : Completions) (ctx : CompletionContext) (kw snippet : String),
       ctx.config.snippet_cap = none →
       Completions.add_keyword_snippet acc ctx kw snippet
         = Completions.add acc
             { kind := CompletionItemKind.Keyword,
               source_range := ctx.source_range, label := kw,
               inserted_text :=
                 some (if snippet.contains '$' then kw else snippet),
               is_snippet := false }) := by
  constructor
  · intro acc ctx kw snippet incomplete_let h
    simp only [Completions.add_keyword_snippet_expr, h]
    rfl
  · intro acc ctx kw snippet h
    simp only [Completions.add_keyword_snippet, h]
    rfl

/-- C7: for every inert declaration kind — const parameter, enum, macro
definition, macro rules, rename binding, self parameter, static, struct,
trait, type parameter, union, variant — `complete_name` invokes no strategy
and returns the accumulator unchanged. -/
theorem complete_name_inert_kinds (S : Strategies) (acc : Completions)
    (ctx : CompletionContext) (name : Option ast.Name) :
    complete_name S acc ctx { name := name, kind := NameKind.ConstParam }
        = acc ∧
    complete_name S acc ctx { name := name, kind := NameKind.Enum } = acc ∧
    complete_name S acc ctx { name := name, kind := NameKind.MacroDef }
        = acc ∧
    complete_name S acc ctx { name := name, kind := NameKind.MacroRules }
        = acc ∧
    complete_name S acc ctx { name := name, kind := NameKind.Rename } = acc ∧
    complete_name S acc ctx { name := name, kind := NameKind.SelfParam }
        = acc ∧
    complete_name S acc ctx { name := name, kind := NameKind.Static } = acc ∧
    complete_name S acc ctx { name := name, kind := NameKind.Struct } = acc ∧
    complete_name S acc ctx { name := name, kind := NameKind.Trait } = acc ∧
    complete_name S acc ctx { name := name, kind := NameKind.TypeParam }
        = acc ∧
    complete_name S acc ctx { name := name, kind := NameKind.Union } = acc ∧
    complete_name S acc ctx { name := name, kind := NameKind.Variant }
        = acc :=
  ⟨rfl, rfl, rfl, rfl, rfl, rfl, rfl, rfl, rfl, rfl, rfl, rfl⟩

/-- C9: the declaration-side identifier-pattern tag and the reference-side
pattern tag route through the identical shared bundle `complete_patterns`,
which runs flyimport-for-patterns, function-parameter pattern completions,
general pattern completions, and record-pattern-field completions, in that
order; hence the two entry points produce the same accumulator mutations on
any pattern sub-context. -/
theorem pattern_bundle_shared (S : Strategies) (acc : Completions)
    (ctx : CompletionContext) (name : Option ast.Name)
    (nameref : Option ast.NameRef) (pattern_ctx : PatternContext) :
    complete_name S acc ctx { name := name, kind := NameKind.IdentPat pattern_ctx }
        = complete_name_ref S acc ctx
            { nameref := nameref, kind := NameRefKind.Pattern pattern_ctx } ∧
    complete_patterns S acc ctx pattern_ctx
        = S.complete_record_pattern_fields
            (S.complete_pattern
              (S.complete_fn_param
                (S.import_on_the_fly_pat acc ctx pattern_ctx)
                ctx pattern_ctx)
              ctx pattern_ctx)
            ctx pattern_ctx :=
  ⟨rfl, rfl⟩

/-- C10: `add_resolution` and `add_resolution_simple` apply the doc-hidden
gate: when the resolved scope definition is hidden for the current position,
both return the accumulator unchanged, for every possible renderer (so no
renderer output can be appended). -/
theorem add_resolution_doc_hidden_gate (R : Renderers) (acc : Completions)
    (ctx : CompletionContext) (local_name : hir.Name)
    (resolution : hir.ScopeDef)
    (h : ctx.is_scope_def_hidden resolution = true) :
    Completions.add_resolution R acc ctx local_name resolution = acc ∧
    Completions.add_resolution_simple R acc ctx local_name resolution
      = acc := by
  constructor
  · simp [Completions.add_resolution, h]
  · simp [Completions.add_resolution_simple, h]

/-- C1 (amended): the append methods that consult the Visibility Oracle —
`add_function`, `add_method`, `add_const`, `add_type_alias`, `add_macro`,
`add_field` — return the accumulator unchanged, with no error, whenever the
oracle classifies the symbol as hidden, for every possible renderer. -/
theorem gated_methods_skip_hidden (R : Renderers) (acc : Completions)
    (ctx : CompletionContext) :
    (∀ (func : hir.Function) (local_name : Option hir.Name),
       ctx.is_visible (VisSymbol.Function func) = Visible.No →
       Completions.add_function R acc ctx func local_name = acc) ∧
    (∀ (func : hir.Function) (receiver local_name : Option hir.Name),
       ctx.is_visible (VisSymbol.Function func) = Visible.No →
       Completions.add_method R acc ctx func receiver local_name = acc) ∧
    (∀ (konst : hir.Const),
       ctx.is_visible (VisSymbol.Const konst) = Visible.No →
       Completions.add_const R acc ctx konst = acc) ∧
    (∀ (type_alias : hir.TypeAlias),
       ctx.is_visible (VisSymbol.TypeAlias type_alias) = Visible.No →
       Completions.add_type_alias R acc ctx type_alias = acc) ∧
    (∀ (mac : hir.Macro) (local_name : hir.Name),
       ctx.is_visible (VisSymbol.Macro mac) = Visible.No →
       Completions.add_macro R acc ctx mac local_name = acc) ∧
    (∀ (receiver : Option hir.Name) (field : hir.Field) (ty : hir.Ty),
       ctx.is_visible (VisSymbol.Field field) = Visible.No →
       Completions.add_field R acc ctx receiver field ty = acc) := by
  refine ⟨?_, ?_, ?_, ?_, ?_, ?_⟩
  · intro func local_name h
    simp [Completions.add_function, visible_flag, h]
  · intro func receiver local_name h
    simp [Completions.add_method, visible_flag, h]
  · intro konst h
    simp [Completions.add_const, visible_flag, h]
  · intro type_alias h
    simp [Completions.add_type_alias, visible_flag, h]
  · intro mac local_name h
    simp [Completions.add_macro, visible_flag, h]
  · intro receiver field ty h
    simp [Completions.add_field, visible_flag, h]

/-- C2 (amended): the append methods that consult the Visibility Oracle —
`add_function`, `add_method`, `add_const`, `add_type_alias`, `add_macro`,
`add_field` — invoke their renderer with the private-editable flag set when
the oracle answers `Editable`, and with the flag unset when it answers
`Yes`; in particular the flag is never set for a `Yes` symbol. -/
theorem gated_methods_thread_private_editable (R : Renderers)
    (acc : Completions) (ctx : CompletionContext) :
    (∀ (func : hir.Function) (local_name : Option hir.Name),
       ctx.is_visible (VisSymbol.Function func) = Visible.Editable →
       Completions.add_function R acc ctx func local_name
         = Completions.add acc (Builder.build <|
             R.render_fn ((RenderContext.new ctx).private_editable true)
               local_name func)) ∧
    (∀ (func : hir.Function) (local_name : Option hir.Name),
       ctx.is_visible (VisSymbol.Function func) = Visible.Yes →
       Completions.add_function R acc ctx func local_name
         = Completions.add acc (Builder.build <|
             R.render_fn ((RenderContext.new ctx).private_editable false)
               local_name func)) ∧
    (∀ (func : hir.Function) (receiver local_name : Option hir.Name),
       ctx.is_visible (VisSymbol.Function func) = Visible.Editable →
       Completions.add_method R acc ctx func receiver local_name
         = Completions.add acc (Builder.build <|
             R.render_method ((RenderContext.new ctx).private_editable true)
               receiver local_name func)) ∧
    (∀ (func : hir.Function) (receiver local_name : Option hir.Name),
       ctx.is_visible (VisSymbol.Function func) = Visible.Yes →
       Completions.add_method R acc ctx func receiver local_name
         = Completions.add acc (Builder.build <|
             R.render_method ((RenderContext.new ctx).private_editable false)
               receiver local_name func)) ∧
    (∀ (konst : hir.Const),
       ctx.is_visible (VisSymbol.Const konst) = Visible.Editable →
       Completions.add_const R acc ctx konst
         = Completions.add_opt acc
             (R.render_const ((RenderContext.new ctx).private_editable true)
               konst)) ∧
    (∀ (konst : hir.Const),
       ctx.is_visible (VisSymbol.Const konst) = Visible.Yes →
       Completions.add_const R acc ctx konst
         = Completions.add_opt acc
             (R.render_const ((RenderContext.new ctx).private_editable false)
               konst)) ∧
    (∀ (type_alias : hir.TypeAlias),
       ctx.is_visible (VisSymbol.TypeAlias type_alias) = Visible.Editable →
       Completions.add_type_alias R acc ctx type_alias
         = Completions.add_opt acc
             (R.render_type_alias
               ((RenderContext.new ctx).private_editable true) type_alias)) ∧
    (∀ (type_alias : hir.TypeAlias),
       ctx.is_visible (VisSymbol.TypeAlias type_alias) = Visible.Yes →
       Completions.add_type_alias R acc ctx type_alias
         = Completions.add_opt acc
             (R.render_type_alias
               ((RenderContext.new ctx).private_editable false)
               type_alias)) ∧
    (∀ (mac : hir.Macro) (local_name : hir.Name),
       ctx.is_visible (VisSymbol.Macro mac) = Visible.Editable →
       Completions.add_macro R acc ctx mac local_name
         = Completions.add acc (Builder.build <|
             R.render_macro ((RenderContext.new ctx).private_editable true)
               local_name mac)) ∧
    (∀ (mac : hir.Macro) (local_name : hir.Name),
       ctx.is_visible (VisSymbol.Macro mac) = Visible.Yes →
       Completions.add_macro R acc ctx mac local_name
         = Completions.add acc (Builder.build <|
             R.render_macro ((RenderContext.new ctx).private_editable false)
               local_name mac)) ∧
    (∀ (receiver : Option hir.Name) (field : hir.Field) (ty : hir.Ty),
       ctx.is_visible (VisSymbol.Field field) = Visible.Editable →
       Completions.add_field R acc ctx receiver field ty
         = Completions.add acc
             (R.render_field ((RenderContext.new ctx).private_editable true)
               receiver field ty)) ∧
    (∀ (receiver : Option hir.Name) (field : hir.Field) (ty : hir.Ty),
       ctx.is_visible (VisSymbol.Field field) = Visible.Yes →
       Completions.add_field R acc ctx receiver field ty
         = Completions.add acc
             (R.render_field ((RenderContext.new ctx).private_editable false)
               receiver field ty)) := by
  refine ⟨?_, ?_, ?_, ?_, ?_, ?_, ?_, ?_, ?_, ?_, ?_, ?_⟩
  · intro func local_name h
    simp [Completions.add_function, visible_flag, h]
  · intro func local_name h
    simp [Completions.add_function, visible_flag, h]
  · intro func receiver local_name h
    simp [Completions.add_method, visible_flag, h]
  · intro func receiver local_name h
    simp [Completions.add_method, visible_flag, h]
  · intro konst h
    simp [Completions.add_const, visible_flag, h]
  · intro konst h
    simp [Completions.add_const, visible_flag, h]
  · intro type_alias h
    simp [Completions.add_type_alias, visible_flag, h]
  · intro type_alias h
    simp [Completions.add_type_alias, visible_flag, h]
  · intro mac local_name h
    simp [Completions.add_macro, visible_flag, h]
  · intro mac local_name h
    simp [Completions.add_macro, visible_flag, h]
  · intro receiver field ty h
    simp [Completions.add_field, visible_flag, h]
  · intro receiver field ty h
    simp [Completions.add_field, visible_flag, h]

/-- A trace candidate: a keyword item whose label names the strategy that
appended it. Used to observe the order in which the dispatch invokes the
strategy functions. -/
def markerItem (s : String) : CompletionItem :=
  { kind := CompletionItemKind.Keyword, source_range := 0, label := s,
    inserted_text := none, is_snippet := false }

/-- Instrumented strategies: each appends one trace candidate naming itself,
so the accumulator records the exact invocation order of the dispatch. -/
def traceStrategies : Strategies where
  import_on_the_fly_path := fun acc _ _ =>
    Completions.add acc (markerItem "import_on_the_fly_path")
  import_on_the_fly_dot := fun acc _ _ =>
    Completions.add acc (markerItem "import_on_the_fly_dot")
  import_on_the_fly_pat := fun acc _ _ =>
    Completions.add acc (markerItem "import_on_the_fly_pat")
  complete_undotted_self := fun acc _ _ _ =>
    Completions.add acc (markerItem "complete_undotted_self")
  complete_expr_path := fun acc _ _ _ =>
    Completions.add acc (markerItem "complete_expr_path")
  complete_item_list_in_expr := fun acc _ _ _ =>
    Completions.add acc (markerItem "complete_item_list_in_expr")
  complete_record_expr_func_update := fun acc _ _ _ =>
    Completions.add acc (markerItem "complete_record_expr_func_update")
  complete_expr_snippet := fun acc _ _ _ =>
    Completions.add acc (markerItem "complete_expr_snippet")
  complete_type_path := fun acc _ _ _ =>
    Completions.add acc (markerItem "complete_type_path")
  complete_field_list_tuple_variant := fun acc _ _ =>
    Completions.add acc (markerItem "complete_field_list_tuple_variant")
  complete_ascribed_type := fun acc _ _ _ =>
    Completions.add acc (markerItem "complete_ascribed_type")
  complete_attribute := fun acc _ _ _ =>
    Completions.add acc (markerItem "complete_attribute")
  complete_derive := fun acc _ _ _ =>
    Completions.add acc (markerItem "complete_derive")
  complete_item_list := fun acc _ _ _ =>
    Completions.add acc (markerItem "complete_item_list")
  complete_item_snippet := fun acc _ _ _ =>
    Completions.add acc (markerItem "complete_item_snippet")
  complete_trait_impl_item_by_name := fun acc _ _ _ _ =>
    Completions.add acc (markerItem "complete_trait_impl_item_by_name")
  complete_pattern_path := fun acc _ _ =>
    Completions.add acc (markerItem "complete_pattern_path")
  complete_vis_path := fun acc _ _ _ =>
    Completions.add acc (markerItem "complete_vis_path")
  complete_use_tree := fun acc _ _ _ =>
    Completions.add acc (markerItem "complete_use_tree")
  complete_dot := fun acc _ _ =>
    Completions.add acc (markerItem "complete_dot")
  complete_postfix := fun acc _ _ =>
    Completions.add acc (markerItem "complete_postfix")
  complete_for_and_where := fun acc _ _ =>
    Completions.add acc (markerItem "complete_for_and_where")
  complete_record_expr_fields := fun acc _ _ =>
    Completions.add acc (markerItem "complete_record_expr_fields")
  complete_fn_param := fun acc _ _ =>
    Completions.add acc (markerItem "complete_fn_param")
  complete_pattern := fun acc _ _ =>
    Completions.add acc (markerItem "complete_pattern")
  complete_record_pattern_fields := fun acc _ _ =>
    Completions.add acc (markerItem "complete_record_pattern_fields")
  complete_trait_impl_const := fun acc _ _ =>
    Completions.add acc (markerItem "complete_trait_impl_const")
  complete_trait_impl_fn := fun acc _ _ =>
    Completions.add acc (markerItem "complete_trait_impl_fn")
  complete_trait_impl_type_alias := fun acc _ _ =>
    Completions.add acc (markerItem "complete_trait_impl_type_alias")
  complete_mod := fun acc _ _ =>
    Completions.add acc (markerItem "complete_mod")
  complete_field_list_record_variant := fun acc _ =>
    Completions.add acc (markerItem "complete_field_list_record_variant")

/-- C8: for every Path reference context, the first strategy the dispatch
invokes is the flyimport out-of-scope-symbol strategy (first conjunct,
observed through the trace instrumentation: whatever the path role, the
first recorded candidate is flyimport's); and for the Expr path role the
strategies run in the fixed order flyimport, undotted-self, expression-path,
expression-position item list, record-update field shorthand, expression
snippets (second conjunct, for every strategy set and accumulator). -/
theorem complete_name_ref_path_order :
    (∀ (ctx : CompletionContext) (nameref : Option ast.NameRef)
       (path_ctx : PathCompletionCtx),
       (complete_name_ref traceStrategies { buf := [] } ctx
           { nameref := nameref, kind := NameRefKind.Path path_ctx }).buf.head?
         = some (markerItem "import_on_the_fly_path")) ∧
    (∀ (S : Strategies) (acc : Completions) (ctx : CompletionContext)
       (nameref : Option ast.NameRef) (expr_ctx : ExprCtx),
       complete_name_ref S acc ctx
           { nameref := nameref,
             kind := NameRefKind.Path { kind := PathKind.Expr expr_ctx } }
         = S.complete_expr_snippet
             (S.complete_record_expr_func_update
               (S.complete_item_list_in_expr
                 (S.complete_expr_path
                   (S.complete_undotted_self
                     (S.import_on_the_fly_path acc ctx
                       { kind := PathKind.Expr expr_ctx })
                     ctx { kind := PathKind.Expr expr_ctx } expr_ctx)
                   ctx { kind := PathKind.Expr expr_ctx } expr_ctx)
                 ctx { kind := PathKind.Expr expr_ctx } expr_ctx)
               ctx { kind := PathKind.Expr expr_ctx } expr_ctx)
             ctx { kind := PathKind.Expr expr_ctx } expr_ctx) := by
  constructor
  · intro ctx nameref path_ctx
    obtain ⟨kind⟩ := path_ctx
    cases kind <;> try rfl
    · rename_i location
      cases location <;> rfl
    · rename_i item_kind
      cases item_kind <;> rfl
  · intro S acc ctx nameref expr_ctx
    rfl

/-- A database with no enums, used for contexts where the database is
irrelevant. -/
def db0 : HirDatabase :=
  { enum_variants := fun _ => [], variant_name := fun _ => "",
    impl_self_ty := fun _ => { as_adt := none } }

/-- Build a concrete context from a snippet capability, a visibility oracle,
and a doc-hidden query. -/
def mkCtx (cap : Option SnippetCap) (vis : VisSymbol → Visible)
    (hidden : hir.ScopeDef → Bool) : CompletionContext :=
  { config := { snippet_cap := cap }, source_range := 0, db := db0,
    sema := { to_def := fun _ => none },
    module := { find_use_path := fun _ _ => none },
    is_visible := vis, is_scope_def_hidden := hidden }

/-- A fixed builder a renderer may return. -/
def builder0 : Builder :=
  { kind := CompletionItemKind.Keyword, source_range := 0, label := "r",
    inserted_text := none, is_snippet := false }

/-- The candidate built from `builder0`. -/
def item0 : CompletionItem := Builder.build builder0

/-- A concrete renderer set that always produces a candidate. -/
def R0 : Renderers where
  render_macro := fun _ _ _ => builder0
  render_fn := fun _ _ _ => builder0
  render_method := fun _ _ _ _ => builder0
  render_const := fun _ _ => some item0
  render_type_alias := fun _ _ => some item0
  render_type_alias_with_eq := fun _ _ => some item0
  render_variant_lit := fun _ _ _ _ => some builder0
  render_field := fun _ _ _ _ => item0
  render_struct_literal := fun _ _ _ _ => some builder0
  render_union_literal := fun _ _ _ _ => some item0
  render_tuple_field := fun _ _ _ _ => item0
  render_variant_pat := fun _ _ _ _ => some item0
  render_struct_pat := fun _ _ _ => some item0
  render_resolution := fun _ _ _ => builder0
  render_resolution_simple := fun _ _ _ => builder0

/-- Like `R0`, but `render_variant_lit` records in the candidate's label
whether it was invoked with the private-editable flag set. -/
def R1 : Renderers :=
  { R0 with
    render_variant_lit := fun rc _ _ _ =>
      some { builder0 with
             label := if rc.is_private_editable then "pe" else "npe" } }

/-- A concrete enum variant. -/
def v0 : hir.Variant := { id := 0 }

/-- A concrete multi-segment path to `v0`. -/
def p0 : hir.ModPath :=
  hir.ModPath.from_segments hir.PathKind.Plain ["m", "E", "V"]

/-- A concrete function symbol. -/
def f0 : hir.Function := { id := 0 }

/-- A concrete macro symbol. -/
def mac0 : hir.Macro := { id := 0 }

/-- A concrete constant symbol. -/
def konst0 : hir.Const := { id := 0 }

/-- A concrete type-alias symbol. -/
def ta0 : hir.TypeAlias := { id := 0 }

/-- A concrete field symbol. -/
def fld0 : hir.Field := { id := 0 }

/-- A concrete field type. -/
def ty0 : hir.Ty := { as_adt := none }

/-- A concrete scope definition. -/
def sd0 : hir.ScopeDef := { id := 0 }

/-- A context whose oracle hides every symbol. -/
def ctxHide : CompletionContext :=
  mkCtx none (fun _ => Visible.No) (fun _ => false)

/-- A context whose oracle answers `Editable` for every symbol. -/
def ctxEd : CompletionContext :=
  mkCtx none (fun _ => Visible.Editable) (fun _ => false)

/-- A context whose oracle answers `Yes` for every symbol. -/
def ctxYes : CompletionContext :=
  mkCtx none (fun _ => Visible.Yes) (fun _ => false)

/-- A context with the snippet capability enabled. -/
def ctxSnip : CompletionContext :=
  mkCtx (some SnippetCap.mk) (fun _ => Visible.Yes) (fun _ => false)

/-- A context whose doc-hidden query hides every scope definition. -/
def ctxHidden : CompletionContext :=
  mkCtx none (fun _ => Visible.Yes) (fun _ => true)

/-- C1 (counterexample): with an oracle that classifies every symbol —
including the appended enum variant — as hidden, `add_qualified_enum_variant`
still appends the renderer's candidate: the accumulator changes, refuting
the claim that every symbol-typed append method returns unchanged on a
hidden symbol. -/
theorem hidden_variant_still_appended :
    ctxHide.is_visible (VisSymbol.Variant v0) = Visible.No ∧
    Completions.add_qualified_enum_variant R0 { buf := [] } ctxHide v0 p0
      ≠ { buf := [] } := by
  refine ⟨rfl, ?_⟩
  decide

/-- C1 (amended) witness at concrete inputs: every oracle-consulting append
method leaves the empty accumulator unchanged under the all-hidden
oracle. -/
theorem gated_methods_skip_hidden_witness :
    ctxHide.is_visible (VisSymbol.Function f0) = Visible.No ∧
    Completions.add_function R0 { buf := [] } ctxHide f0 none
      = { buf := [] } ∧
    Completions.add_method R0 { buf := [] } ctxHide f0 none none
      = { buf := [] } ∧
    Completions.add_const R0 { buf := [] } ctxHide konst0 = { buf := [] } ∧
    Completions.add_type_alias R0 { buf := [] } ctxHide ta0
      = { buf := [] } ∧
    Completions.add_macro R0 { buf := [] } ctxHide mac0 "m"
      = { buf := [] } ∧
    Completions.add_field R0 { buf := [] } ctxHide none fld0 ty0
      = { buf := [] } :=
  ⟨rfl,
   (gated_methods_skip_hidden R0 { buf := [] } ctxHide).1 f0 none rfl,
   (gated_methods_skip_hidden R0 { buf := [] } ctxHide).2.1 f0 none none rfl,
   (gated_methods_skip_hidden R0 { buf := [] } ctxHide).2.2.1 konst0 rfl,
   (gated_methods_skip_hidden R0 { buf := [] } ctxHide).2.2.2.1 ta0 rfl,
   (gated_methods_skip_hidden R0 { buf := [] } ctxHide).2.2.2.2.1 mac0 "m"
     rfl,
   (gated_methods_skip_hidden R0 { buf := [] } ctxHide).2.2.2.2.2 none fld0
     ty0 rfl⟩

/-- C2 (counterexample): with an oracle answering `Editable` for the variant,
`add_qualified_enum_variant` invokes its renderer with the private-editable
flag unset — the flag-recording renderer `R1` labels the produced candidate
"npe" — refuting the claim that every symbol-typed append method threads the
flag for `Editable` symbols. -/
theorem editable_variant_flag_not_set :
    ctxEd.is_visible (VisSymbol.Variant v0) = Visible.Editable ∧
    Completions.add_qualified_enum_variant R1 { buf := [] } ctxEd v0 p0
      = { buf := [{ kind := CompletionItemKind.Keyword, source_range := 0,
                    label := "npe", inserted_text := none,
                    is_snippet := false }] } :=
  ⟨rfl, rfl⟩

/-- C2 (amended) witness at concrete inputs: `add_function` threads the flag
set under the all-`Editable` oracle and unset under the all-`Yes` oracle. -/
theorem gated_methods_thread_private_editable_witness :
    ctxEd.is_visible (VisSymbol.Function f0) = Visible.Editable ∧
    Completions.add_function R0 { buf := [] } ctxEd f0 none
      = Completions.add { buf := [] } (Builder.build <|
          R0.render_fn ((RenderContext.new ctxEd).private_editable true)
            none f0) ∧
    ctxYes.is_visible (VisSymbol.Function f0) = Visible.Yes ∧
    Completions.add_function R0 { buf := [] } ctxYes f0 none
      = Completions.add { buf := [] } (Builder.build <|
          R0.render_fn ((RenderContext.new ctxYes).private_editable false)
            none f0) :=
  ⟨rfl,
   (gated_methods_thread_private_editable R0 { buf := [] } ctxEd).1 f0 none
     rfl,
   rfl,
   (gated_methods_thread_private_editable R0 { buf := [] } ctxYes).2.1 f0
     none rfl⟩

/-- The enum completed in the C3 witness scenario. -/
def e0 : hir.Enum := { id := 0 }

/-- The syntactic impl block of the C3 witness scenario. -/
def implAst0 : ast.Impl := { id := 0 }

/-- The resolved impl of the C3 witness scenario. -/
def implDef0 : hir.Impl := { id := 0 }

/-- A database where `e0` has two variants `A`, `B` and every impl's self
type is `e0`. -/
def db3 : HirDatabase :=
  { enum_variants := fun _ => [{ id := 0 }, { id := 1 }],
    variant_name := fun v => if v.id = 0 then "A" else "B",
    impl_self_ty := fun _ => { as_adt := some (hir.Adt.Enum e0) } }

/-- A context sitting inside the impl block of enum `e0`. -/
def ctxImpl : CompletionContext :=
  { config := { snippet_cap := none }, source_range := 0, db := db3,
    sema := { to_def := fun _ => some implDef0 },
    module := { find_use_path := fun _ _ => none },
    is_visible := fun _ => Visible.Yes,
    is_scope_def_hidden := fun _ => false }

/-- A callback recording each (variant, path) invocation as a trace
candidate labelled with the path. -/
def cbTrace :
    Completions → CompletionContext → hir.Variant → hir.ModPath →
      Completions :=
  fun acc _ _ path =>
    Completions.add acc (markerItem (String.intercalate "::" path.segments))

/-- C3 witness at concrete inputs: inside `impl e0`, the enumerator emits
`Self::A` and `Self::B` first. -/
theorem self_variant_paths_first_witness :
    (some implAst0).bind ctxImpl.sema.to_def = some implDef0 ∧
    (hir.Impl.self_ty implDef0 ctxImpl.db).as_adt
      = some (hir.Adt.Enum e0) ∧
    enum_variants_with_paths { buf := [] } ctxImpl e0 (some implAst0) cbTrace
      = (((hir.Enum.variants e0 ctxImpl.db).map fun v =>
            (v, hir.ModPath.from_segments hir.PathKind.Plain
              [hir.known.SELF_TYPE, hir.Variant.name v ctxImpl.db]))
          ++ step2Calls ctxImpl e0).foldl
          (fun acc vp => cbTrace acc ctxImpl vp.1 vp.2) { buf := [] } :=
  ⟨rfl, rfl,
   self_variant_paths_first { buf := [] } ctxImpl e0 (some implAst0)
     implDef0 cbTrace rfl rfl⟩

/-- C5 witness at concrete inputs: a block-valued snippet completed inside an
incomplete `let` gets exactly one trailing semicolon. -/
theorem keyword_snippet_expr_let_semi_witness :
    ctxSnip.config.snippet_cap = some SnippetCap.mk ∧
    Completions.add_keyword_snippet_expr { buf := [] } ctxSnip "loop"
        "loop \x7b$0\x7d" true
      = Completions.add { buf := [] }
          { kind := CompletionItemKind.Keyword,
            source_range := ctxSnip.source_range, label := "loop",
            inserted_text := some
              (if ("loop \x7b$0\x7d").endsWith "\x7d" && true then
                "loop \x7b$0\x7d" ++ ";"
              else "loop \x7b$0\x7d"),
            is_snippet := true } :=
  ⟨rfl,
   keyword_snippet_expr_let_semi { buf := [] } ctxSnip "loop"
     "loop \x7b$0\x7d" true SnippetCap.mk rfl⟩

/-- C6 witness at concrete inputs: with the capability disabled, a
placeholder-bearing body degrades to the bare keyword, and a
placeholder-free body is inserted literally. -/
theorem keyword_snippet_degradation_witness :
    ctxHide.config.snippet_cap = none ∧
    Completions.add_keyword_snippet_expr { buf := [] } ctxHide "if"
        "if $1 \x7b$0\x7d" false
      = Completions.add { buf := [] }
          { kind := CompletionItemKind.Keyword,
            source_range := ctxHide.source_range, label := "if",
            inserted_text := some
              (if ("if $1 \x7b$0\x7d").contains '$' then "if"
               else "if $1 \x7b$0\x7d"),
            is_snippet := false } ∧
    Completions.add_keyword_snippet { buf := [] } ctxHide "pub" "pub"
      = Completions.add { buf := [] }
          { kind := CompletionItemKind.Keyword,
            source_range := ctxHide.source_range, label := "pub",
            inserted_text := some
              (if ("pub").contains '$' then "pub" else "pub"),
            is_snippet := false } :=
  ⟨rfl,
   keyword_snippet_degradation.1 { buf := [] } ctxHide "if"
     "if $1 \x7b$0\x7d" false rfl,
   keyword_snippet_degradation.2 { buf := [] } ctxHide "pub" "pub" rfl⟩

/-- C10 witness at concrete inputs: with every scope definition doc-hidden,
both resolution append methods leave the accumulator unchanged. -/
theorem add_resolution_doc_hidden_gate_witness :
    ctxHidden.is_scope_def_hidden sd0 = true ∧
    Completions.add_resolution R0 { buf := [] } ctxHidden "x" sd0
      = { buf := [] } ∧
    Completions.add_resolution_simple R0 { buf := [] } ctxHidden "x" sd0
      = { buf := [] } :=
  ⟨rfl,
   (add_resolution_doc_hidden_gate R0 { buf := [] } ctxHidden "x" sd0
     rfl).1,
   (add_resolution_doc_hidden_gate R0 { buf := [] } ctxHidden "x" sd0
     rfl).2⟩
